import Mathlib

/-!
Verification of the streaming-ingestion and timing-instrumentation pipeline of
the next-edit-suggestion backend (guidellm/backends/next_edit_suggestion.py).

The Python module is shallowly embedded as follows.  Wall-clock instants taken
by time.time() are abstracted as natural numbers; a monotone clock is expressed
as an explicit hypothesis where a theorem needs it.  A request body is
represented by its list of field names (Python dict keys, in insertion order).
The pluggable line decoder lives in the response_handlers module, outside the
sources verified here; every theorem therefore quantifies over the verdict the
decoder returns for each drained line, which is exactly how the transport loop
in this module consumes it: none encodes the end-of-stream signal (the Python
handler returning None for the END_OF_STREAM_LINE sentinel), some c encodes c
produced progress units.
-/

namespace NES

/-- Route table of the module configuration block (API_ROUTES), as an
association list in declaration order. -/
def API_ROUTES : List (String × String) :=
  [("next_edit_suggestions", "/service/v5/generate/v1"),
   ("health", "/health")]

/-- Required body fields (OBLIGATORY_REQUEST_FIELDS). -/
def OBLIGATORY_REQUEST_FIELDS : List String :=
  ["filepath", "prefix", "editable_region_prefix", "editable_region_suffix",
   "suffix", "history"]

/-- Optional body fields (OPTIONAL_REQUEST_FIELDS). -/
def OPTIONAL_REQUEST_FIELDS : List String :=
  ["max_length", "temperature", "seed", "top_p", "top_k"]

/-- End-of-stream sentinel line (END_OF_STREAM_LINE). -/
def END_OF_STREAM_LINE : String := "data: end"

/-- Timing record mutated in place by resolve (request_info.timings). -/
structure Timings where
  request_start : Option Nat := none
  request_end : Option Nat := none
  first_request_iteration : Option Nat := none
  last_request_iteration : Option Nat := none
  request_iterations : Nat := 0
  first_token_iteration : Option Nat := none
  last_token_iteration : Option Nat := none
  token_iterations : Int := 0
  deriving DecidableEq

/-- Per-line bookkeeping that runs unconditionally for every drained line
(resolve, loop body before the decoder is consulted): set
first_request_iteration if unset, always set last_request_iteration, and
increment request_iterations. -/
def touchRequest (tm : Timings) (t : Nat) : Timings :=
  { tm with
    first_request_iteration :=
      match tm.first_request_iteration with
      | none => some t
      | some v => some v,
    last_request_iteration := some t,
    request_iterations := tm.request_iterations + 1 }

/-- One iteration of the transport loop of resolve, for a line drained at time
t on which the decoder reported u (none encodes the end-of-stream signal).
Mirrors the loop body: the request bookkeeping always runs; the token
bookkeeping is skipped when u is the end signal, when u is not positive, or
when the end was already reached; otherwise first_token_iteration is set (and
token_iterations reset to zero) on its first line, last_token_iteration is set
and token_iterations incremented by u. -/
def stepLine (tm : Timings) (endReached : Bool) (t : Nat) (u : Option Int) :
    Timings × Bool :=
  let tm := touchRequest tm t
  match u with
  | none => (tm, true)
  | some c =>
    if c ≤ 0 ∨ endReached = true then
      (tm, endReached)
    else
      let tm :=
        if tm.first_token_iteration = none then
          { tm with first_token_iteration := some t, token_iterations := 0 }
        else tm
      ({ tm with
          last_token_iteration := some t,
          token_iterations := tm.token_iterations + c }, endReached)

/-- The transport loop of resolve, folded over the drained lines, each carried
as (iteration time, decoder verdict). -/
def consumeStream (tm : Timings) (endReached : Bool) :
    List (Nat × Option Int) → Timings × Bool
  | [] => (tm, endReached)
  | (t, u) :: rest =>
    let s := stepLine tm endReached t u
    consumeStream s.1 s.2 rest

/-- Number of lines of a stream on which the decoder reported exactly one
produced unit. -/
def unitCount : List (Nat × Option Int) → Nat
  | [] => 0
  | (_, u) :: rest => (if u = some 1 then 1 else 0) + unitCount rest

/-- Iteration time of the first line reporting exactly one produced unit. -/
def firstUnitTime : List (Nat × Option Int) → Option Nat
  | [] => none
  | (t, u) :: rest => if u = some 1 then some t else firstUnitTime rest

/-- Iteration time of the last line reporting exactly one produced unit. -/
def lastUnitTime : List (Nat × Option Int) → Option Nat
  | [] => none
  | (t, u) :: rest =>
    if u = some 1 then (lastUnitTime rest).or (some t) else lastUnitTime rest

/-- Comparison of two optional timestamps, vacuously true when either side is
unset. -/
def timeLe : Option Nat → Option Nat → Bool
  | some a, some b => decide (a ≤ b)
  | _, _ => true

/-- Structured content of the ValueError messages raised by
NextEditSuggestionBackend._validate_request_body: the enumerated violating
fields together with the echoed actual field set (the Got part of the
message). -/
inductive ValidationErr where
  | missingFields (expected : List String) (got : List String)
  | superfluousFields (fields : List String) (got : List String)
  deriving DecidableEq

/-- Field-set validation of the outbound request body
(NextEditSuggestionBackend._validate_request_body).  Returns the structured
error instead of raising; none means the body passed. -/
def validate_request_body (body : List String) : Option ValidationErr :=
  if !(OBLIGATORY_REQUEST_FIELDS.all fun k => body.contains k) then
    some (ValidationErr.missingFields OBLIGATORY_REQUEST_FIELDS body)
  else
    let superfluous := body.filter fun k =>
      !((OBLIGATORY_REQUEST_FIELDS ++ OPTIONAL_REQUEST_FIELDS).contains k)
    if superfluous = [] then none
    else some (ValidationErr.superfluousFields superfluous body)

/-- Structured content of the exceptions resolve can raise: the RuntimeError
for a backend not started up, the NotImplementedError for a non-None history,
the ValueError for an unsupported request type (carrying the interpolated
supported-type list, list(api_routes.keys())), the body-validation ValueError,
and the RuntimeError wrapping any exception of the streamed exchange (carrying
the interpolated cause). -/
inductive ResolveErr where
  | notStarted
  | multiTurnUnsupported
  | unsupportedType (requestType : String) (supported : List String)
  | validation (e : ValidationErr)
  | streaming (cause : String)
  deriving DecidableEq

/-- Message of the RuntimeError wrapping a streamed-exchange failure. -/
def streamingMsg (cause : String) : String :=
  "Error processing streaming response from Next Edit Suggestion service: "
    ++ cause

/-- Transport arguments of a generation request (request.arguments); the body
is represented by its field-name list. -/
structure RequestArgs where
  method : Option String := none
  body : List String
  deriving DecidableEq

/-- Generation request as consumed by resolve. -/
structure GenerationRequest where
  request_type : String
  arguments : RequestArgs
  deriving DecidableEq

/-- Constructor configuration of NextEditSuggestionBackend. -/
structure BackendCfg where
  target : String
  api_routes : List (String × String) := API_ROUTES
  deriving DecidableEq

/-- Runtime state of the backend: the _in_process flag and the _async_client
handle (abstracted to Option Unit). -/
structure BackendState where
  in_process : Bool := false
  async_client : Option Unit := none
  deriving DecidableEq

/-- NextEditSuggestionBackend.process_startup. -/
def process_startup (st : BackendState) : Except String BackendState :=
  if st.in_process then
    .error "Backend already started up for process."
  else
    .ok { in_process := true, async_client := some () }

/-- NextEditSuggestionBackend.process_shutdown. -/
def process_shutdown (st : BackendState) : Except String BackendState :=
  if !st.in_process then
    .error "Backend not started up for process."
  else
    .ok { in_process := false, async_client := none }

/-- NextEditSuggestionBackend.validate: the health probe, with the outcome of
the GET on the health route (success of raise_for_status included) abstracted
as the boolean healthOk. -/
def validate (st : BackendState) (healthOk : Bool) : Except String Unit :=
  if st.async_client = none then
    .error "Backend not started up for process."
  else if healthOk then
    .ok ()
  else
    .error ("Backend validation request failed. Could not connect to the " ++
      "server or validate the backend configuration.")

/-- Interaction of one resolve call with the streamed HTTP exchange, as the
transport loop observes it.  Modelled from the spec: the line decoder and its
factory (response_handlers module) are not part of the sources verified here,
so the script carries, for each line the transport drains, the verdict the
decoder returns for it, and carries the failure causes of the two network
phases.  connectFailure is a failure while opening the stream or in
raise_for_status; lines are the drained lines (iteration time, decoder
verdict); iterFailure is a failure of the line iteration after those lines;
endTime is the wall clock taken in the finally block. -/
structure StreamScript where
  connectFailure : Option String := none
  lines : List (Nat × Option Int) := []
  iterFailure : Option String := none
  endTime : Nat := 0
  deriving DecidableEq

instance : DecidableEq (Except ResolveErr Unit) := fun
  | .ok (), .ok () => isTrue rfl
  | .ok (), .error _ => isFalse Except.noConfusion
  | .error _, .ok () => isFalse Except.noConfusion
  | .error a, .error b =>
    if h : a = b then isTrue (h ▸ rfl)
    else isFalse fun hc => h (Except.error.inj hc)

/-- Observable outcome of one resolve call: the value returned or the
exception raised, the timing record after the call (request_info.timings is
mutated in place, so it is observable also when resolve raises), whether the
streamed HTTP call was issued at all, and the URL it was issued against. -/
structure ResolveOutcome where
  result : Except ResolveErr Unit
  timings : Timings
  networkCalled : Bool
  requestUrl : Option String
  deriving DecidableEq

/-- NextEditSuggestionBackend.resolve.  Follows the source order: the
_async_client lifecycle check, the history check, the route lookup, the body
validation, then request_start is stamped and the streamed exchange runs with
the finally block stamping request_end on every exit path; any exception of
the exchange is re-raised as the wrapping RuntimeError. -/
def resolve (cfg : BackendCfg) (st : BackendState) (req : GenerationRequest)
    (tm0 : Timings) (history : Option (List Unit)) (startTime : Nat)
    (script : StreamScript) : ResolveOutcome :=
  if st.async_client = none then
    { result := .error .notStarted, timings := tm0,
      networkCalled := false, requestUrl := none }
  else if history ≠ none then
    { result := .error .multiTurnUnsupported, timings := tm0,
      networkCalled := false, requestUrl := none }
  else
    match List.lookup req.request_type cfg.api_routes with
    | none =>
      { result := .error (.unsupportedType req.request_type
          (cfg.api_routes.map Prod.fst)),
        timings := tm0, networkCalled := false, requestUrl := none }
    | some request_path =>
      let request_url := cfg.target ++ request_path
      match validate_request_body req.arguments.body with
      | some e =>
        { result := .error (.validation e), timings := tm0,
          networkCalled := false, requestUrl := none }
      | none =>
        let tm1 := { tm0 with request_start := some startTime }
        match script.connectFailure with
        | some cause =>
          { result := .error (.streaming cause),
            timings := { tm1 with request_end := some script.endTime },
            networkCalled := true, requestUrl := some request_url }
        | none =>
          let tm2 := (consumeStream tm1 false script.lines).1
          match script.iterFailure with
          | some cause =>
            { result := .error (.streaming cause),
              timings := { tm2 with request_end := some script.endTime },
              networkCalled := true, requestUrl := some request_url }
          | none =>
            { result := .ok (),
              timings := { tm2 with request_end := some script.endTime },
              networkCalled := true, requestUrl := some request_url }

/-- Backend state as produced by the constructor. -/
def initState : BackendState := {}

/-- Backend state right after a successful process_startup. -/
def startedState : BackendState := { in_process := true, async_client := some () }

/-- A backend built with the default route table. -/
def defaultCfg : BackendCfg := { target := "http://localhost:5000" }

/-- A body carrying exactly the required fields. -/
def validBody : List String := OBLIGATORY_REQUEST_FIELDS

/-- A request of the type named by the default route table. -/
def nesReq : GenerationRequest :=
  { request_type := "next_edit_suggestions", arguments := { body := validBody } }

theorem touchRequest_first_token (tm : Timings) (t : Nat) :
    (touchRequest tm t).first_token_iteration = tm.first_token_iteration := rfl

theorem touchRequest_last_token (tm : Timings) (t : Nat) :
    (touchRequest tm t).last_token_iteration = tm.last_token_iteration := rfl

theorem touchRequest_tokens (tm : Timings) (t : Nat) :
    (touchRequest tm t).token_iterations = tm.token_iterations := rfl

theorem touchRequest_start (tm : Timings) (t : Nat) :
    (touchRequest tm t).request_start = tm.request_start := rfl

theorem touchRequest_iters (tm : Timings) (t : Nat) :
    (touchRequest tm t).request_iterations = tm.request_iterations + 1 := rfl

theorem touchRequest_last_req (tm : Timings) (t : Nat) :
    (touchRequest tm t).last_request_iteration = some t := rfl

theorem touchRequest_first_req (tm : Timings) (t : Nat) :
    (touchRequest tm t).first_request_iteration
      = tm.first_request_iteration.or (some t) := by
  rcases h : tm.first_request_iteration with _ | v <;> simp [touchRequest, h]

theorem stepLine_end_signal (tm : Timings) (e : Bool) (t : Nat) :
    stepLine tm e t none = (touchRequest tm t, true) := rfl

theorem stepLine_after_end (tm : Timings) (t : Nat) (u : Option Int) :
    stepLine tm true t u = (touchRequest tm t, true) := by
  cases u with
  | none => rfl
  | some c => simp [stepLine]

theorem stepLine_nonpos (tm : Timings) (e : Bool) (t : Nat) (c : Int)
    (hc : c ≤ 0) : stepLine tm e t (some c) = (touchRequest tm t, e) := by
  simp [stepLine, hc]

theorem consumeStream_append (tm : Timings) (e : Bool)
    (l1 l2 : List (Nat × Option Int)) :
    consumeStream tm e (l1 ++ l2)
      = consumeStream (consumeStream tm e l1).1 (consumeStream tm e l1).2 l2 := by
  induction l1 generalizing tm e with
  | nil => rfl
  | cons p rest ih =>
    obtain ⟨t, u⟩ := p
    simp only [List.cons_append, consumeStream]
    exact ih _ _

theorem consumeStream_iters (ls : List (Nat × Option Int)) :
    ∀ tm e, (consumeStream tm e ls).1.request_iterations
      = tm.request_iterations + ls.length := by
  induction ls with
  | nil => intro tm e; simp [consumeStream]
  | cons p rest ih =>
    obtain ⟨t, u⟩ := p
    intro tm e
    have hstep : (stepLine tm e t u).1.request_iterations
        = tm.request_iterations + 1 := by
      simp only [stepLine]
      cases u with
      | none => exact touchRequest_iters tm t
      | some c =>
        by_cases hc : c ≤ 0 ∨ e = true
        · simp [hc, touchRequest_iters]
        · simp [hc]
          split <;> simp [touchRequest_iters]
    simp only [consumeStream]
    rw [ih]
    rw [hstep]
    simp [List.length_cons]
    omega

theorem consumeStream_start (ls : List (Nat × Option Int)) :
    ∀ tm e, (consumeStream tm e ls).1.request_start = tm.request_start := by
  induction ls with
  | nil => intro tm e; rfl
  | cons p rest ih =>
    obtain ⟨t, u⟩ := p
    intro tm e
    have hstep : (stepLine tm e t u).1.request_start = tm.request_start := by
      simp only [stepLine]
      cases u with
      | none => rfl
      | some c =>
        by_cases hc : c ≤ 0 ∨ e = true
        · simp [hc, touchRequest_start]
        · simp [hc]
          split <;> simp [touchRequest_start]
    simp only [consumeStream]
    rw [ih, hstep]

theorem consumeStream_first_req (ls : List (Nat × Option Int)) :
    ∀ tm e, (consumeStream tm e ls).1.first_request_iteration
      = tm.first_request_iteration.or ((ls.map Prod.fst).head?) := by
  induction ls with
  | nil => intro tm e; simp [consumeStream, Option.or_none]
  | cons p rest ih =>
    obtain ⟨t, u⟩ := p
    intro tm e
    have hstep : (stepLine tm e t u).1.first_request_iteration
        = tm.first_request_iteration.or (some t) := by
      simp only [stepLine]
      cases u with
      | none => exact touchRequest_first_req tm t
      | some c =>
        by_cases hc : c ≤ 0 ∨ e = true
        · simp [hc, touchRequest_first_req]
        · simp [hc]
          split <;> simp [touchRequest_first_req]
    simp only [consumeStream]
    rw [ih, hstep]
    rcases rest with _ | ⟨q, rest'⟩
    · simp [Option.or_none]
    · simp [Option.or_assoc]

theorem consumeStream_last_req (ls : List (Nat × Option Int)) :
    ∀ tm e, (consumeStream tm e ls).1.last_request_iteration
      = ((ls.map Prod.fst).getLast?).or tm.last_request_iteration := by
  induction ls with
  | nil => intro tm e; rfl
  | cons p rest ih =>
    obtain ⟨t, u⟩ := p
    intro tm e
    have hstep : (stepLine tm e t u).1.last_request_iteration = some t := by
      simp only [stepLine]
      cases u with
      | none => rfl
      | some c =>
        by_cases hc : c ≤ 0 ∨ e = true
        · simp [hc, touchRequest_last_req]
        · simp [hc]
          split <;> simp [touchRequest_last_req]
    simp only [consumeStream]
    rw [ih, hstep]
    rcases rest with _ | ⟨q, rest'⟩
    · rfl
    · rcases h : ((q.1 :: List.map Prod.fst rest').getLast?) with _ | v
      · simp only [List.getLast?_eq_none_iff] at h
        exact absurd h (List.cons_ne_nil _ _)
      · simp [h]

theorem consumeStream_after_end (ls : List (Nat × Option Int)) :
    ∀ tm : Timings, (consumeStream tm true ls).2 = true ∧
      (consumeStream tm true ls).1.first_token_iteration
        = tm.first_token_iteration ∧
      (consumeStream tm true ls).1.last_token_iteration
        = tm.last_token_iteration ∧
      (consumeStream tm true ls).1.token_iterations = tm.token_iterations := by
  induction ls with
  | nil => intro tm; exact ⟨rfl, rfl, rfl, rfl⟩
  | cons p rest ih =>
    obtain ⟨t, u⟩ := p
    intro tm
    have hcs : consumeStream tm true ((t, u) :: rest)
        = consumeStream (touchRequest tm t) true rest := by
      simp only [consumeStream, stepLine_after_end]
    rcases ih (touchRequest tm t) with ⟨h1, h2, h3, h4⟩
    rw [hcs]
    exact ⟨h1, by rw [h2, touchRequest_first_token],
      by rw [h3, touchRequest_last_token], by rw [h4, touchRequest_tokens]⟩

theorem consumeStream_token_set (ls : List (Nat × Option Int))
    (hU : ∀ p ∈ ls, p.2 = some 0 ∨ p.2 = some 1) :
    ∀ (tm : Timings) (f : Nat), tm.first_token_iteration = some f →
      (consumeStream tm false ls).2 = false ∧
      (consumeStream tm false ls).1.token_iterations
        = tm.token_iterations + (unitCount ls : Int) ∧
      (consumeStream tm false ls).1.first_token_iteration = some f ∧
      (consumeStream tm false ls).1.last_token_iteration
        = (lastUnitTime ls).or tm.last_token_iteration := by
  induction ls with
  | nil =>
    intro tm f hf
    exact ⟨rfl, by simp [consumeStream, unitCount], hf,
      by simp [consumeStream, lastUnitTime]⟩
  | cons p rest ih =>
    obtain ⟨t, u⟩ := p
    intro tm f hf
    have hrest : ∀ p ∈ rest, p.2 = some 0 ∨ p.2 = some 1 :=
      fun p hp => hU p (List.mem_cons_of_mem _ hp)
    rcases hU (t, u) (List.mem_cons_self _ _) with h0 | h1
    · simp only at h0
      subst h0
      have hcs : consumeStream tm false ((t, some 0) :: rest)
          = consumeStream (touchRequest tm t) false rest := by
        simp only [consumeStream, stepLine_nonpos tm false t 0 le_rfl]
      rcases ih hrest (touchRequest tm t) f
          (by rw [touchRequest_first_token]; exact hf) with ⟨h1', h2', h3', h4'⟩
      rw [hcs]
      refine ⟨h1', ?_, h3', ?_⟩
      · rw [h2', touchRequest_tokens]
        simp [unitCount]
      · rw [h4', touchRequest_last_token]
        simp [lastUnitTime]
    · simp only at h1
      subst h1
      have hcond : ¬((1 : Int) ≤ 0 ∨ false = true) := by decide
      have hne : ¬((touchRequest tm t).first_token_iteration = none) := by
        rw [touchRequest_first_token, hf]; simp
      have hsnd : (stepLine tm false t (some 1)).2 = false := by
        simp [stepLine, hcond, hne]
      have hfst : (stepLine tm false t (some 1)).1.first_token_iteration
          = some f := by
        simp [stepLine, hcond, hne, touchRequest_first_token, hf]
      have htok : (stepLine tm false t (some 1)).1.token_iterations
          = tm.token_iterations + 1 := by
        simp [stepLine, hcond, hne, touchRequest_tokens]
      have hlast : (stepLine tm false t (some 1)).1.last_token_iteration
          = some t := by
        simp [stepLine, hcond, hne]
      have hcs : consumeStream tm false ((t, some 1) :: rest)
          = consumeStream (stepLine tm false t (some 1)).1 false rest := by
        simp only [consumeStream, hsnd]
      rcases ih hrest (stepLine tm false t (some 1)).1 f hfst
        with ⟨h1', h2', h3', h4'⟩
      rw [hcs]
      refine ⟨h1', ?_, h3', ?_⟩
      · rw [h2', htok]
        simp only [unitCount, if_pos rfl]
        push_cast
        ring
      · rw [h4', hlast]
        simp [lastUnitTime, Option.or_assoc]

theorem consumeStream_token_unset (ls : List (Nat × Option Int))
    (hU : ∀ p ∈ ls, p.2 = some 0 ∨ p.2 = some 1) :
    ∀ tm : Timings, tm.first_token_iteration = none →
      (consumeStream tm false ls).2 = false ∧
      (consumeStream tm false ls).1.token_iterations
        = (if firstUnitTime ls = none then tm.token_iterations
           else (unitCount ls : Int)) ∧
      (consumeStream tm false ls).1.first_token_iteration = firstUnitTime ls ∧
      (consumeStream tm false ls).1.last_token_iteration
        = (lastUnitTime ls).or tm.last_token_iteration := by
  induction ls with
  | nil =>
    intro tm hf
    exact ⟨rfl, by simp [consumeStream, firstUnitTime],
      by simp [consumeStream, firstUnitTime, hf],
      by simp [consumeStream, lastUnitTime]⟩
  | cons p rest ih =>
    obtain ⟨t, u⟩ := p
    intro tm hf
    have hrest : ∀ p ∈ rest, p.2 = some 0 ∨ p.2 = some 1 :=
      fun p hp => hU p (List.mem_cons_of_mem _ hp)
    rcases hU (t, u) (List.mem_cons_self _ _) with h0 | h1
    · simp only at h0
      subst h0
      have hcs : consumeStream tm false ((t, some 0) :: rest)
          = consumeStream (touchRequest tm t) false rest := by
        simp only [consumeStream, stepLine_nonpos tm false t 0 le_rfl]
      rcases ih hrest (touchRequest tm t)
          (by rw [touchRequest_first_token]; exact hf) with ⟨h1', h2', h3', h4'⟩
      rw [hcs]
      refine ⟨h1', ?_, ?_, ?_⟩
      · rw [h2', touchRequest_tokens]
        simp [unitCount, firstUnitTime]
      · rw [h3']
        simp [firstUnitTime]
      · rw [h4', touchRequest_last_token]
        simp [lastUnitTime]
    · simp only at h1
      subst h1
      have hcond : ¬((1 : Int) ≤ 0 ∨ false = true) := by decide
      have hone : (touchRequest tm t).first_token_iteration = none := by
        rw [touchRequest_first_token]; exact hf
      have hsnd : (stepLine tm false t (some 1)).2 = false := by
        simp [stepLine, hcond, hone]
      have hfst : (stepLine tm false t (some 1)).1.first_token_iteration
          = some t := by
        simp [stepLine, hcond, hone]
      have htok : (stepLine tm false t (some 1)).1.token_iterations = 1 := by
        simp [stepLine, hcond, hone]
      have hlast : (stepLine tm false t (some 1)).1.last_token_iteration
          = some t := by
        simp [stepLine, hcond, hone]
      have hcs : consumeStream tm false ((t, some 1) :: rest)
          = consumeStream (stepLine tm false t (some 1)).1 false rest := by
        simp only [consumeStream, hsnd]
      rcases consumeStream_token_set rest hrest
          (stepLine tm false t (some 1)).1 t hfst with ⟨h1', h2', h3', h4'⟩
      rw [hcs]
      refine ⟨h1', ?_, ?_, ?_⟩
      · rw [h2', htok]
        have h5 : firstUnitTime ((t, some 1) :: rest) = some t := by
          simp [firstUnitTime]
        have h6 : unitCount ((t, some 1) :: rest) = 1 + unitCount rest := by
          simp [unitCount]
        rw [h5, h6, if_neg (show ¬(some t = (none : Option Nat)) by simp)]
        push_cast
        ring
      · rw [h3']
        simp [firstUnitTime]
      · rw [h4', hlast]
        simp [lastUnitTime, Option.or_assoc]

theorem firstUnitTime_none_count (ls : List (Nat × Option Int)) :
    firstUnitTime ls = none → unitCount ls = 0 := by
  induction ls with
  | nil => intro _; rfl
  | cons p rest ih =>
    obtain ⟨t, u⟩ := p
    intro h
    by_cases h1 : u = some 1
    · simp [firstUnitTime, h1] at h
    · simp only [firstUnitTime, if_neg h1] at h
      simp [unitCount, if_neg h1, ih h]

theorem lastUnitTime_none_count (ls : List (Nat × Option Int)) :
    lastUnitTime ls = none → unitCount ls = 0 := by
  induction ls with
  | nil => intro _; rfl
  | cons p rest ih =>
    obtain ⟨t, u⟩ := p
    intro h
    by_cases h1 : u = some 1
    · simp only [lastUnitTime, if_pos h1] at h
      rcases hr : lastUnitTime rest with _ | v <;> rw [hr] at h <;> simp at h
    · simp only [lastUnitTime, if_neg h1] at h
      simp [unitCount, if_neg h1, ih h]

theorem firstUnitTime_mem (ls : List (Nat × Option Int)) :
    ∀ x, firstUnitTime ls = some x → x ∈ ls.map Prod.fst := by
  induction ls with
  | nil => intro x h; simp [firstUnitTime] at h
  | cons p rest ih =>
    obtain ⟨t, u⟩ := p
    intro x h
    by_cases h1 : u = some 1
    · simp only [firstUnitTime, if_pos h1, Option.some.injEq] at h
      subst h
      simp
    · simp only [firstUnitTime, if_neg h1] at h
      simpa using Or.inr (List.mem_map.mp (ih x h))

theorem lastUnitTime_mem (ls : List (Nat × Option Int)) :
    ∀ x, lastUnitTime ls = some x → x ∈ ls.map Prod.fst := by
  induction ls with
  | nil => intro x h; simp [lastUnitTime] at h
  | cons p rest ih =>
    obtain ⟨t, u⟩ := p
    intro x h
    by_cases h1 : u = some 1
    · simp only [lastUnitTime, if_pos h1] at h
      rcases hr : lastUnitTime rest with _ | v <;> rw [hr] at h
      · simp only [Option.none_or, Option.some.injEq] at h
        subst h
        simp
      · simp only [Option.or_some, Option.some.injEq] at h
        subst h
        simpa using Or.inr (List.mem_map.mp (ih _ hr))
    · simp only [lastUnitTime, if_neg h1] at h
      simpa using Or.inr (List.mem_map.mp (ih x h))

theorem pairwise_head_le {l : List Nat} (h : l.Pairwise (· ≤ ·)) :
    ∀ a, l.head? = some a → ∀ x ∈ l, a ≤ x := by
  cases l with
  | nil => intro a ha; simp at ha
  | cons b tl =>
    intro a ha x hx
    simp only [List.head?_cons, Option.some.injEq] at ha
    subst ha
    rcases List.mem_cons.mp hx with rfl | hx'
    · exact le_refl x
    · exact (List.pairwise_cons.mp h).1 x hx'

theorem pairwise_le_last {l : List Nat} (h : l.Pairwise (· ≤ ·)) :
    ∀ b, l.getLast? = some b → ∀ x ∈ l, x ≤ b := by
  induction l with
  | nil => intro b hb; simp at hb
  | cons a tl ih =>
    intro b hb x hx
    rcases tl with _ | ⟨c, tl'⟩
    · simp only [List.getLast?_singleton, Option.some.injEq] at hb
      subst hb
      rcases List.mem_singleton.mp hx with rfl
      exact le_refl _
    · rw [List.getLast?_cons_cons] at hb
      rcases List.mem_cons.mp hx with rfl | hx'
      · exact (List.pairwise_cons.mp h).1 b (List.mem_of_getLast?_eq_some hb)
      · exact ih (List.pairwise_cons.mp h).2 b hb x hx'

theorem firstUnit_le_lastUnit (ls : List (Nat × Option Int))
    (hM : (ls.map Prod.fst).Pairwise (· ≤ ·)) :
    ∀ a b, firstUnitTime ls = some a → lastUnitTime ls = some b → a ≤ b := by
  induction ls with
  | nil => intro a b ha; simp [firstUnitTime] at ha
  | cons p rest ih =>
    obtain ⟨t, u⟩ := p
    intro a b ha hb
    simp only [List.map_cons] at hM
    by_cases h1 : u = some 1
    · simp only [firstUnitTime, if_pos h1, Option.some.injEq] at ha
      subst ha
      simp only [lastUnitTime, if_pos h1] at hb
      rcases hr : lastUnitTime rest with _ | v <;> rw [hr] at hb
      · simp only [Option.none_or, Option.some.injEq] at hb
        omega
      · simp only [Option.or_some, Option.some.injEq] at hb
        subst hb
        exact (List.pairwise_cons.mp hM).1 _ (lastUnitTime_mem rest _ hr)
    · simp only [firstUnitTime, if_neg h1] at ha
      simp only [lastUnitTime, if_neg h1] at hb
      exact ih (List.pairwise_cons.mp hM).2 a b ha hb

theorem unitCount_pos_first (ls : List (Nat × Option Int))
    (h : 0 < unitCount ls) : (firstUnitTime ls).isSome = true := by
  rcases hf : firstUnitTime ls with _ | v
  · rw [firstUnitTime_none_count ls hf] at h
    exact absurd h (lt_irrefl 0)
  · rfl

theorem unitCount_pos_last (ls : List (Nat × Option Int))
    (h : 0 < unitCount ls) : (lastUnitTime ls).isSome = true := by
  rcases hf : lastUnitTime ls with _ | v
  · rw [lastUnitTime_none_count ls hf] at h
    exact absurd h (lt_irrefl 0)
  · rfl

theorem resolve_not_started (cfg : BackendCfg) (st : BackendState)
    (req : GenerationRequest) (tm0 : Timings) (hist : Option (List Unit))
    (startTime : Nat) (script : StreamScript)
    (hs : st.async_client = none) :
    resolve cfg st req tm0 hist startTime script
      = { result := .error .notStarted, timings := tm0,
          networkCalled := false, requestUrl := none } := by
  simp [resolve, hs]

theorem resolve_history_reject (cfg : BackendCfg) (st : BackendState)
    (req : GenerationRequest) (tm0 : Timings) (h : List Unit)
    (startTime : Nat) (script : StreamScript)
    (hs : st.async_client = some ()) :
    resolve cfg st req tm0 (some h) startTime script
      = { result := .error .multiTurnUnsupported, timings := tm0,
          networkCalled := false, requestUrl := none } := by
  simp [resolve, hs]

theorem resolve_unsupported (cfg : BackendCfg) (st : BackendState)
    (req : GenerationRequest) (tm0 : Timings) (startTime : Nat)
    (script : StreamScript)
    (hs : st.async_client = some ())
    (hroute : List.lookup req.request_type cfg.api_routes = none) :
    resolve cfg st req tm0 none startTime script
      = { result := .error (.unsupportedType req.request_type
            (cfg.api_routes.map Prod.fst)),
          timings := tm0, networkCalled := false, requestUrl := none } := by
  simp [resolve, hs, hroute]

theorem resolve_validation_fail (cfg : BackendCfg) (st : BackendState)
    (req : GenerationRequest) (tm0 : Timings) (rp : String) (startTime : Nat)
    (script : StreamScript) (e : ValidationErr)
    (hs : st.async_client = some ())
    (hroute : List.lookup req.request_type cfg.api_routes = some rp)
    (hv : validate_request_body req.arguments.body = some e) :
    resolve cfg st req tm0 none startTime script
      = { result := .error (.validation e), timings := tm0,
          networkCalled := false, requestUrl := none } := by
  simp [resolve, hs, hroute, hv]

theorem resolve_connect_fail (cfg : BackendCfg) (st : BackendState)
    (req : GenerationRequest) (tm0 : Timings) (rp : String) (startTime : Nat)
    (script : StreamScript) (cause : String)
    (hs : st.async_client = some ())
    (hroute : List.lookup req.request_type cfg.api_routes = some rp)
    (hv : validate_request_body req.arguments.body = none)
    (hcf : script.connectFailure = some cause) :
    resolve cfg st req tm0 none startTime script
      = { result := .error (.streaming cause),
          timings := { tm0 with
                       request_start := some startTime,
                       request_end := some script.endTime },
          networkCalled := true, requestUrl := some (cfg.target ++ rp) } := by
  rcases script with ⟨cf, lines, itf, et⟩
  simp only at hcf
  subst hcf
  simp [resolve, hs, hroute, hv]

theorem resolve_iter_fail (cfg : BackendCfg) (st : BackendState)
    (req : GenerationRequest) (tm0 : Timings) (rp : String) (startTime : Nat)
    (script : StreamScript) (cause : String)
    (hs : st.async_client = some ())
    (hroute : List.lookup req.request_type cfg.api_routes = some rp)
    (hv : validate_request_body req.arguments.body = none)
    (hcf : script.connectFailure = none)
    (hif : script.iterFailure = some cause) :
    resolve cfg st req tm0 none startTime script
      = { result := .error (.streaming cause),
          timings :=
            { (consumeStream { tm0 with request_start := some startTime }
                false script.lines).1 with
              request_end := some script.endTime },
          networkCalled := true, requestUrl := some (cfg.target ++ rp) } := by
  rcases script with ⟨cf, lines, itf, et⟩
  simp only at hcf hif
  subst hcf
  subst hif
  simp [resolve, hs, hroute, hv]

theorem resolve_success (cfg : BackendCfg) (st : BackendState)
    (req : GenerationRequest) (tm0 : Timings) (rp : String) (startTime : Nat)
    (script : StreamScript)
    (hs : st.async_client = some ())
    (hroute : List.lookup req.request_type cfg.api_routes = some rp)
    (hv : validate_request_body req.arguments.body = none)
    (hcf : script.connectFailure = none)
    (hif : script.iterFailure = none) :
    resolve cfg st req tm0 none startTime script
      = { result := .ok (),
          timings :=
            { (consumeStream { tm0 with request_start := some startTime }
                false script.lines).1 with
              request_end := some script.endTime },
          networkCalled := true, requestUrl := some (cfg.target ++ rp) } := by
  rcases script with ⟨cf, lines, itf, et⟩
  simp only at hcf hif
  subst hcf
  subst hif
  simp [resolve, hs, hroute, hv]

/-- C9: On a started backend, any history argument other than None — the
empty list included — is rejected immediately with the unsupported-feature
NotImplementedError, before the route lookup, the body validation, any
timing write, and any network call: the outcome carries the untouched timing
record, no network call and no request URL, whatever the request holds. -/
theorem resolve_rejects_any_history (cfg : BackendCfg) (st : BackendState)
    (req : GenerationRequest) (tm0 : Timings) (h : List Unit)
    (s : Nat) (script : StreamScript)
    (hs : st.async_client = some ()) :
    (resolve cfg st req tm0 (some h) s script).result
        = .error .multiTurnUnsupported ∧
    (resolve cfg st req tm0 (some h) s script).networkCalled = false ∧
    (resolve cfg st req tm0 (some h) s script).timings = tm0 ∧
    (resolve cfg st req tm0 (some h) s script).requestUrl = none := by
  rw [resolve_history_reject cfg st req tm0 h s script hs]
  exact ⟨rfl, rfl, rfl, rfl⟩

/-- Witness for C9 at the empty history list, with an unknown request type
and an invalid body, showing the history rejection precedes every other
check and every timing write. -/
theorem resolve_rejects_any_history_witness :
    startedState.async_client = some () ∧
    ((resolve defaultCfg startedState
        { request_type := "bogus", arguments := { body := ["foo"] } }
        {} (some []) 0 {}).result = .error .multiTurnUnsupported ∧
     (resolve defaultCfg startedState
        { request_type := "bogus", arguments := { body := ["foo"] } }
        {} (some []) 0 {}).networkCalled = false ∧
     (resolve defaultCfg startedState
        { request_type := "bogus", arguments := { body := ["foo"] } }
        {} (some []) 0 {}).timings = {} ∧
     (resolve defaultCfg startedState
        { request_type := "bogus", arguments := { body := ["foo"] } }
        {} (some []) 0 {}).requestUrl = none) :=
  ⟨rfl, resolve_rejects_any_history defaultCfg startedState
    { request_type := "bogus", arguments := { body := ["foo"] } }
    {} [] 0 {} rfl⟩

/-- C7: Lifecycle misuse is a fatal usage error: a second process_startup
after a startup raises; resolve and validate raise whenever the client
handle is absent, which holds both for the uninitialized backend (initState)
and after any successful process_shutdown; and process_shutdown without a
prior startup raises. -/
theorem lifecycle_misuse_fatal :
    (∀ st st' : BackendState, process_startup st = .ok st' →
      process_startup st' = .error "Backend already started up for process.") ∧
    (∀ (cfg : BackendCfg) (st : BackendState) (req : GenerationRequest)
        (tm0 : Timings) (hist : Option (List Unit)) (s : Nat)
        (script : StreamScript), st.async_client = none →
      (resolve cfg st req tm0 hist s script).result = .error .notStarted ∧
      (resolve cfg st req tm0 hist s script).networkCalled = false) ∧
    (∀ (st : BackendState) (ok : Bool), st.async_client = none →
      validate st ok = .error "Backend not started up for process.") ∧
    (∀ st st' : BackendState, process_shutdown st = .ok st' →
      st'.async_client = none) ∧
    (∀ st : BackendState, st.in_process = false →
      process_shutdown st = .error "Backend not started up for process.") ∧
    initState.async_client = none ∧ initState.in_process = false := by
  refine ⟨?_, ?_, ?_, ?_, ?_, rfl, rfl⟩
  · intro st st' h
    cases hip : st.in_process with
    | true => simp [process_startup, hip] at h
    | false =>
      simp [process_startup, hip] at h
      subst h
      rfl
  · intro cfg st req tm0 hist s script hcl
    rw [resolve_not_started cfg st req tm0 hist s script hcl]
    exact ⟨rfl, rfl⟩
  · intro st ok hcl
    simp [validate, hcl]
  · intro st st' h
    cases hip : st.in_process with
    | true =>
      simp [process_shutdown, hip] at h
      subst h
      rfl
    | false => simp [process_shutdown, hip] at h
  · intro st h
    simp [process_shutdown, h]

/-- Witness for C7: the concrete lifecycle transitions on the initial state
and the started state. -/
theorem lifecycle_misuse_fatal_witness :
    process_startup initState = .ok startedState ∧
    process_startup startedState
      = .error "Backend already started up for process." ∧
    (resolve defaultCfg initState nesReq {} none 0 {}).result
      = .error .notStarted ∧
    validate initState true = .error "Backend not started up for process." ∧
    ({ in_process := false, async_client := none } : BackendState).async_client
      = none ∧
    process_shutdown initState
      = .error "Backend not started up for process." := by
  refine ⟨rfl, ?_, ?_, ?_, ?_, ?_⟩
  · exact lifecycle_misuse_fatal.1 initState startedState rfl
  · exact (lifecycle_misuse_fatal.2.1 defaultCfg initState nesReq
      {} none 0 {} rfl).1
  · exact lifecycle_misuse_fatal.2.2.1 initState true rfl
  · exact lifecycle_misuse_fatal.2.2.2.1 startedState
      { in_process := false, async_client := none } rfl
  · exact lifecycle_misuse_fatal.2.2.2.2.1 initState rfl

/-- C10: With the default route table a resolve call of request type health
passes the unsupported-type check, because the route table used for the
lookup also holds the health entry, and the streamed generation request is
issued against the health route; and for any request type absent from the
table the raised unsupported-type error carries the supported-type list,
which includes health. -/
theorem health_request_type_supported (st : BackendState)
    (req : GenerationRequest) (tm0 : Timings) (s : Nat)
    (script : StreamScript)
    (hs : st.async_client = some ())
    (ht : req.request_type = "health")
    (hv : validate_request_body req.arguments.body = none) :
    (resolve defaultCfg st req tm0 none s script).networkCalled = true ∧
    (resolve defaultCfg st req tm0 none s script).requestUrl
        = some (defaultCfg.target ++ "/health") ∧
    (∀ req' : GenerationRequest,
      List.lookup req'.request_type defaultCfg.api_routes = none →
      (resolve defaultCfg st req' tm0 none s script).result
          = .error (.unsupportedType req'.request_type
              ["next_edit_suggestions", "health"]) ∧
      "health" ∈ ["next_edit_suggestions", "health"]) := by
  have hroute : List.lookup req.request_type defaultCfg.api_routes
      = some "/health" := by
    rw [ht]
    rfl
  have hmain : (resolve defaultCfg st req tm0 none s script).networkCalled
        = true ∧
      (resolve defaultCfg st req tm0 none s script).requestUrl
        = some (defaultCfg.target ++ "/health") := by
    rcases hcf : script.connectFailure with _ | c
    · rcases hif : script.iterFailure with _ | c'
      · rw [resolve_success defaultCfg st req tm0 "/health" s script
          hs hroute hv hcf hif]
        exact ⟨rfl, rfl⟩
      · rw [resolve_iter_fail defaultCfg st req tm0 "/health" s script c'
          hs hroute hv hcf hif]
        exact ⟨rfl, rfl⟩
    · rw [resolve_connect_fail defaultCfg st req tm0 "/health" s script c
        hs hroute hv hcf]
      exact ⟨rfl, rfl⟩
  refine ⟨hmain.1, hmain.2, ?_⟩
  intro req' hr'
  rw [resolve_unsupported defaultCfg st req' tm0 s script hs hr']
  exact ⟨rfl, by simp⟩

/-- Witness for C10 at a concrete health-typed request with a valid body, and
a concrete unknown request type. -/
theorem health_request_type_supported_witness :
    (resolve defaultCfg startedState
        { request_type := "health", arguments := { body := validBody } }
        {} none 0 {}).networkCalled = true ∧
    (resolve defaultCfg startedState
        { request_type := "health", arguments := { body := validBody } }
        {} none 0 {}).requestUrl = some (defaultCfg.target ++ "/health") ∧
    ((resolve defaultCfg startedState
        { request_type := "not_a_route", arguments := { body := validBody } }
        {} none 0 {}).result
      = .error (.unsupportedType "not_a_route"
          ["next_edit_suggestions", "health"]) ∧
     "health" ∈ ["next_edit_suggestions", "health"]) := by
  have h := health_request_type_supported startedState
    { request_type := "health", arguments := { body := validBody } }
    {} 0 {} rfl rfl rfl
  exact ⟨h.1, h.2.1, h.2.2
    { request_type := "not_a_route", arguments := { body := validBody } } rfl⟩

/-- C4: Evaluation of the claimed end-to-end scenario on the code: with the
default route table, a resolve call of request type text_completions whose
body carries exactly the required fields, against a server stream decoding
as two one-unit lines followed by the end sentinel, does not succeed — it
raises the unsupported-type ValueError before any network call, because the
default route table keys are next_edit_suggestions and health only. -/
theorem text_completions_request_fails :
    (resolve defaultCfg startedState
        { request_type := "text_completions", arguments := { body := validBody } }
        {} none 0
        { lines := [(1, some 1), (2, some 1), (3, none)], endTime := 4 }).result
      = .error (.unsupportedType "text_completions"
          ["next_edit_suggestions", "health"]) ∧
    (resolve defaultCfg startedState
        { request_type := "text_completions", arguments := { body := validBody } }
        {} none 0
        { lines := [(1, some 1), (2, some 1), (3, none)],
          endTime := 4 }).networkCalled = false := by
  exact ⟨rfl, rfl⟩

/-- C5 counterexample: for the body carrying only filepath the validator
rejects, but the missing-field list it reports is the full required list
OBLIGATORY_REQUEST_FIELDS, which differs from the set difference of the
required fields minus the fields present — filepath is present yet still
reported. -/
theorem missing_report_not_difference :
    validate_request_body ["filepath"]
      = some (.missingFields OBLIGATORY_REQUEST_FIELDS ["filepath"]) ∧
    OBLIGATORY_REQUEST_FIELDS.filter
        (fun k => !((["filepath"] : List String).contains k))
      ≠ OBLIGATORY_REQUEST_FIELDS := by
  exact ⟨rfl, by decide⟩

/-- C5 amended: For every body missing at least one required field, resolve
rejects it before any network I/O and before any timing write, with the
missing-fields ValueError; the reported missing-field list is the full
required-field list OBLIGATORY_REQUEST_FIELDS, not the set difference, and
the error echoes the actual field set received. -/
theorem missing_fields_rejected_pre_network (cfg : BackendCfg)
    (st : BackendState) (req : GenerationRequest) (tm0 : Timings)
    (rp : String) (s : Nat) (script : StreamScript)
    (hs : st.async_client = some ())
    (hroute : List.lookup req.request_type cfg.api_routes = some rp)
    (hmiss : ∃ k ∈ OBLIGATORY_REQUEST_FIELDS,
      req.arguments.body.contains k = false) :
    (resolve cfg st req tm0 none s script).result
        = .error (.validation
            (.missingFields OBLIGATORY_REQUEST_FIELDS req.arguments.body)) ∧
    (resolve cfg st req tm0 none s script).networkCalled = false ∧
    (resolve cfg st req tm0 none s script).timings = tm0 := by
  have hall : (OBLIGATORY_REQUEST_FIELDS.all
      fun k => req.arguments.body.contains k) = false := by
    rcases hmiss with ⟨k, hk, hkc⟩
    cases hb : (OBLIGATORY_REQUEST_FIELDS.all
        fun k => req.arguments.body.contains k) with
    | false => rfl
    | true =>
      have hc := (List.all_eq_true.mp hb) k hk
      rw [hkc] at hc
      exact Bool.noConfusion hc
  have hv : validate_request_body req.arguments.body
      = some (.missingFields OBLIGATORY_REQUEST_FIELDS req.arguments.body) := by
    unfold validate_request_body
    rw [hall]
    rfl
  rw [resolve_validation_fail cfg st req tm0 rp s script _ hs hroute hv]
  exact ⟨rfl, rfl, rfl⟩

/-- Witness for C5 at the body carrying only filepath. -/
theorem missing_fields_rejected_pre_network_witness :
    (∃ k ∈ OBLIGATORY_REQUEST_FIELDS,
      (["filepath"] : List String).contains k = false) ∧
    ((resolve defaultCfg startedState
        { request_type := "next_edit_suggestions",
          arguments := { body := ["filepath"] } } {} none 0 {}).result
        = .error (.validation
            (.missingFields OBLIGATORY_REQUEST_FIELDS ["filepath"])) ∧
     (resolve defaultCfg startedState
        { request_type := "next_edit_suggestions",
          arguments := { body := ["filepath"] } } {} none 0 {}).networkCalled
        = false ∧
     (resolve defaultCfg startedState
        { request_type := "next_edit_suggestions",
          arguments := { body := ["filepath"] } } {} none 0 {}).timings
        = {}) := by
  refine ⟨⟨"suffix", by decide, rfl⟩, ?_⟩
  exact missing_fields_rejected_pre_network defaultCfg startedState
    { request_type := "next_edit_suggestions",
      arguments := { body := ["filepath"] } }
    {} "/service/v5/generate/v1" 0 {} rfl rfl ⟨"suffix", by decide, rfl⟩

/-- C6 counterexample: for the body holding only the extra field foo, resolve
raises the missing-fields ValueError — the missing-fields check fires first —
whose enumerated violating fields are the required fields, and foo is not
among them, so the raised validation error does not name the offending extra
field. -/
theorem extra_field_not_named_counterexample :
    (resolve defaultCfg startedState
        { request_type := "next_edit_suggestions",
          arguments := { body := ["foo"] } } {} none 0 {}).result
      = .error (.validation (.missingFields OBLIGATORY_REQUEST_FIELDS ["foo"])) ∧
    "foo" ∉ OBLIGATORY_REQUEST_FIELDS := by
  exact ⟨rfl, by decide⟩

/-- C6 amended: For every body that contains all required fields and at least
one field outside the union of required and optional fields, resolve raises
the superfluous-fields ValueError naming that field, strictly before any
network call and before any timing field is written; bodies additionally
missing a required field are instead rejected by the earlier missing-fields
check, equally before I/O, which only echoes the extra field inside the
received field set. -/
theorem superfluous_field_rejected_pre_network (cfg : BackendCfg)
    (st : BackendState) (req : GenerationRequest) (tm0 : Timings)
    (rp : String) (s : Nat) (script : StreamScript) (f : String)
    (hs : st.async_client = some ())
    (hroute : List.lookup req.request_type cfg.api_routes = some rp)
    (hall : (OBLIGATORY_REQUEST_FIELDS.all
      fun k => req.arguments.body.contains k) = true)
    (hf : f ∈ req.arguments.body)
    (hout : ((OBLIGATORY_REQUEST_FIELDS ++ OPTIONAL_REQUEST_FIELDS).contains f)
      = false) :
    (resolve cfg st req tm0 none s script).result
        = .error (.validation (.superfluousFields
            (req.arguments.body.filter fun k =>
              !((OBLIGATORY_REQUEST_FIELDS ++ OPTIONAL_REQUEST_FIELDS).contains k))
            req.arguments.body)) ∧
    f ∈ req.arguments.body.filter (fun k =>
        !((OBLIGATORY_REQUEST_FIELDS ++ OPTIONAL_REQUEST_FIELDS).contains k)) ∧
    (resolve cfg st req tm0 none s script).networkCalled = false ∧
    (resolve cfg st req tm0 none s script).timings = tm0 := by
  have hmem : f ∈ req.arguments.body.filter (fun k =>
      !((OBLIGATORY_REQUEST_FIELDS ++ OPTIONAL_REQUEST_FIELDS).contains k)) :=
    List.mem_filter.mpr ⟨hf, by rw [hout]; rfl⟩
  have hne : req.arguments.body.filter (fun k =>
      !((OBLIGATORY_REQUEST_FIELDS ++ OPTIONAL_REQUEST_FIELDS).contains k))
      ≠ [] := List.ne_nil_of_mem hmem
  have hv : validate_request_body req.arguments.body
      = some (.superfluousFields
          (req.arguments.body.filter fun k =>
            !((OBLIGATORY_REQUEST_FIELDS ++ OPTIONAL_REQUEST_FIELDS).contains k))
          req.arguments.body) := by
    unfold validate_request_body
    rw [hall, if_neg (show ¬((!true) = true) by decide)]
    show (if (req.arguments.body.filter fun k =>
        !((OBLIGATORY_REQUEST_FIELDS ++ OPTIONAL_REQUEST_FIELDS).contains k))
          = [] then none
      else some (ValidationErr.superfluousFields
        (req.arguments.body.filter fun k =>
          !((OBLIGATORY_REQUEST_FIELDS ++ OPTIONAL_REQUEST_FIELDS).contains k))
        req.arguments.body))
      = some (ValidationErr.superfluousFields
        (req.arguments.body.filter fun k =>
          !((OBLIGATORY_REQUEST_FIELDS ++ OPTIONAL_REQUEST_FIELDS).contains k))
        req.arguments.body)
    rw [if_neg hne]
  rw [resolve_validation_fail cfg st req tm0 rp s script _ hs hroute hv]
  exact ⟨rfl, hmem, rfl, rfl⟩

/-- Witness for C6 at a body carrying every required field plus foo. -/
theorem superfluous_field_rejected_pre_network_witness :
    ((OBLIGATORY_REQUEST_FIELDS.all
      fun k => (OBLIGATORY_REQUEST_FIELDS ++ ["foo"]).contains k) = true) ∧
    ((resolve defaultCfg startedState
        { request_type := "next_edit_suggestions",
          arguments := { body := OBLIGATORY_REQUEST_FIELDS ++ ["foo"] } }
        {} none 0 {}).result
        = .error (.validation (.superfluousFields
            ((OBLIGATORY_REQUEST_FIELDS ++ ["foo"]).filter fun k =>
              !((OBLIGATORY_REQUEST_FIELDS ++ OPTIONAL_REQUEST_FIELDS).contains k))
            (OBLIGATORY_REQUEST_FIELDS ++ ["foo"]))) ∧
     "foo" ∈ (OBLIGATORY_REQUEST_FIELDS ++ ["foo"]).filter (fun k =>
        !((OBLIGATORY_REQUEST_FIELDS ++ OPTIONAL_REQUEST_FIELDS).contains k)) ∧
     (resolve defaultCfg startedState
        { request_type := "next_edit_suggestions",
          arguments := { body := OBLIGATORY_REQUEST_FIELDS ++ ["foo"] } }
        {} none 0 {}).networkCalled = false ∧
     (resolve defaultCfg startedState
        { request_type := "next_edit_suggestions",
          arguments := { body := OBLIGATORY_REQUEST_FIELDS ++ ["foo"] } }
        {} none 0 {}).timings = {}) := by
  refine ⟨by decide, ?_⟩
  exact superfluous_field_rejected_pre_network defaultCfg startedState
    { request_type := "next_edit_suggestions",
      arguments := { body := OBLIGATORY_REQUEST_FIELDS ++ ["foo"] } }
    {} "/service/v5/generate/v1" 0 {} "foo" rfl rfl (by decide)
    (by decide) (by decide)

/-- C2: Every resolve call that reaches the streamed-read region — the
lifecycle, history, route and body-validation checks all pass — records
request_end on every exit path (success, connect failure or iteration
failure), always to the one instant taken in the finally block;
request_start holds the instant stamped just before the exchange, and under
a monotone clock every recorded request_end is at least every recorded
request_start, also on the paths that raise the streaming error. -/
theorem request_end_set_on_every_exit (cfg : BackendCfg) (st : BackendState)
    (req : GenerationRequest) (tm0 : Timings) (rp : String) (s : Nat)
    (script : StreamScript)
    (hs : st.async_client = some ())
    (hroute : List.lookup req.request_type cfg.api_routes = some rp)
    (hv : validate_request_body req.arguments.body = none)
    (hclock : s ≤ script.endTime) :
    (resolve cfg st req tm0 none s script).timings.request_end
        = some script.endTime ∧
    (resolve cfg st req tm0 none s script).timings.request_start = some s ∧
    (∀ a ∈ (resolve cfg st req tm0 none s script).timings.request_start,
     ∀ b ∈ (resolve cfg st req tm0 none s script).timings.request_end,
       a ≤ b) := by
  have hmain : (resolve cfg st req tm0 none s script).timings.request_end
        = some script.endTime ∧
      (resolve cfg st req tm0 none s script).timings.request_start
        = some s := by
    rcases hcf : script.connectFailure with _ | c
    · rcases hif : script.iterFailure with _ | c'
      · rw [resolve_success cfg st req tm0 rp s script hs hroute hv hcf hif]
        refine ⟨rfl, ?_⟩
        show ((consumeStream { tm0 with request_start := some s } false
          script.lines).1).request_start = some s
        simp [consumeStream_start]
      · rw [resolve_iter_fail cfg st req tm0 rp s script c'
          hs hroute hv hcf hif]
        refine ⟨rfl, ?_⟩
        show ((consumeStream { tm0 with request_start := some s } false
          script.lines).1).request_start = some s
        simp [consumeStream_start]
    · rw [resolve_connect_fail cfg st req tm0 rp s script c hs hroute hv hcf]
      exact ⟨rfl, rfl⟩
  refine ⟨hmain.1, hmain.2, ?_⟩
  intro a ha b hb
  rw [hmain.2] at ha
  rw [hmain.1] at hb
  simp only [Option.mem_def, Option.some.injEq] at ha hb
  subst ha
  subst hb
  exact hclock

/-- Witness for C2: a mid-stream disconnect after three drained lines still
leaves request_end recorded and at least request_start. -/
theorem request_end_set_on_every_exit_witness :
    (1 : Nat) ≤ 9 ∧
    (resolve defaultCfg startedState nesReq {} none 1
        { lines := [(1, some 1), (2, some 0), (3, some 1)],
          iterFailure := some "disconnect", endTime := 9 }).timings.request_end
      = some 9 ∧
    (resolve defaultCfg startedState nesReq {} none 1
        { lines := [(1, some 1), (2, some 0), (3, some 1)],
          iterFailure := some "disconnect", endTime := 9 }).timings.request_start
      = some 1 := by
  have h := request_end_set_on_every_exit defaultCfg startedState nesReq {}
    "/service/v5/generate/v1" 1
    { lines := [(1, some 1), (2, some 0), (3, some 1)],
      iterFailure := some "disconnect", endTime := 9 }
    rfl rfl rfl (by decide)
  exact ⟨by decide, h.1, h.2.1⟩

/-- C8 counterexample: a connect-phase failure and an iterate-phase failure
with the same underlying cause make resolve raise the very same error value,
so the raised diagnostic does not name the failing phase and cannot
distinguish connect from iterate. -/
theorem streaming_error_phase_indistinct :
    (resolve defaultCfg startedState nesReq {} none 0
        { connectFailure := some "boom", endTime := 5 }).result
      = .error (.streaming "boom") ∧
    (resolve defaultCfg startedState nesReq {} none 0
        { lines := [(1, some 1)], iterFailure := some "boom",
          endTime := 5 }).result
      = .error (.streaming "boom") ∧
    (resolve defaultCfg startedState nesReq {} none 0
        { connectFailure := some "boom", endTime := 5 }).result
      = (resolve defaultCfg startedState nesReq {} none 0
          { lines := [(1, some 1)], iterFailure := some "boom",
            endTime := 5 }).result := by
  exact ⟨rfl, rfl, rfl⟩

/-- C8 amended: Every failure of the streamed exchange, in the connect phase
or the iterate phase, makes resolve raise the wrapping RuntimeError that
carries the underlying cause inside the one uniform diagnostic
(streamingMsg, which does not name the phase), and request_end is recorded
on that path as well. -/
theorem streaming_failure_wraps_cause (cfg : BackendCfg) (st : BackendState)
    (req : GenerationRequest) (tm0 : Timings) (rp : String) (s : Nat)
    (script : StreamScript) (cause : String)
    (hs : st.async_client = some ())
    (hroute : List.lookup req.request_type cfg.api_routes = some rp)
    (hv : validate_request_body req.arguments.body = none)
    (hfail : script.connectFailure = some cause ∨
      (script.connectFailure = none ∧ script.iterFailure = some cause)) :
    (resolve cfg st req tm0 none s script).result
        = .error (.streaming cause) ∧
    (resolve cfg st req tm0 none s script).timings.request_end
        = some script.endTime ∧
    streamingMsg cause
      = "Error processing streaming response from Next Edit Suggestion service: "
        ++ cause := by
  rcases hfail with hcf | ⟨hcf, hif⟩
  · rw [resolve_connect_fail cfg st req tm0 rp s script cause hs hroute hv hcf]
    exact ⟨rfl, rfl, rfl⟩
  · rw [resolve_iter_fail cfg st req tm0 rp s script cause hs hroute hv hcf hif]
    exact ⟨rfl, rfl, rfl⟩

/-- Witness for C8 at a concrete connect-phase timeout. -/
theorem streaming_failure_wraps_cause_witness :
    (resolve defaultCfg startedState nesReq {} none 2
        { connectFailure := some "timeout", endTime := 7 }).result
      = .error (.streaming "timeout") ∧
    (resolve defaultCfg startedState nesReq {} none 2
        { connectFailure := some "timeout", endTime := 7 }).timings.request_end
      = some 7 ∧
    streamingMsg "timeout"
      = "Error processing streaming response from Next Edit Suggestion service: "
        ++ "timeout" := by
  exact streaming_failure_wraps_cause defaultCfg startedState nesReq {}
    "/service/v5/generate/v1" 2
    { connectFailure := some "timeout", endTime := 7 }
    "timeout" rfl rfl rfl (Or.inl rfl)

/-- C3: Once a line carrying the end-of-stream signal has been consumed,
every subsequent drained line — whatever its decoder verdict — contributes
nothing to token_iterations and leaves first_token_iteration and
last_token_iteration unchanged, while request_iterations still grows by one
per drained line, first_request_iteration stays put and
last_request_iteration keeps tracking the latest drained line; the
termination latch is set by the first signal and stays set. -/
theorem termination_latch_stops_token_counting
    (pre post : List (Nat × Option Int)) (t0 : Nat) :
    (consumeStream {} false (pre ++ [(t0, none)])).2 = true ∧
    (consumeStream {} false (pre ++ (t0, none) :: post)).2 = true ∧
    (consumeStream {} false (pre ++ (t0, none) :: post)).1.token_iterations
      = (consumeStream {} false (pre ++ [(t0, none)])).1.token_iterations ∧
    (consumeStream {} false (pre ++ (t0, none) :: post)).1.first_token_iteration
      = (consumeStream {} false (pre ++ [(t0, none)])).1.first_token_iteration ∧
    (consumeStream {} false (pre ++ (t0, none) :: post)).1.last_token_iteration
      = (consumeStream {} false (pre ++ [(t0, none)])).1.last_token_iteration ∧
    (consumeStream {} false (pre ++ (t0, none) :: post)).1.request_iterations
      = (consumeStream {} false (pre ++ [(t0, none)])).1.request_iterations
        + post.length ∧
    (consumeStream {} false (pre ++ (t0, none) :: post)).1.first_request_iteration
      = (consumeStream {} false (pre ++ [(t0, none)])).1.first_request_iteration ∧
    (consumeStream {} false (pre ++ (t0, none) :: post)).1.last_request_iteration
      = ((post.map Prod.fst).getLast?).or (some t0) := by
  have hsplit : pre ++ (t0, none) :: post = (pre ++ [(t0, none)]) ++ post := by
    simp
  rw [hsplit,
    consumeStream_append ({} : Timings) false (pre ++ [(t0, none)]) post]
  set T := consumeStream {} false (pre ++ [(t0, none)]) with hT
  have hTend : T.2 = true := by
    rw [hT, consumeStream_append]
    simp [consumeStream, stepLine_end_signal]
  rw [hTend]
  have hTfr : T.1.first_request_iteration
      = ((pre ++ [(t0, none)]).map Prod.fst).head? := by
    rw [hT, consumeStream_first_req]
    simp
  have hTfr2 : (T.1.first_request_iteration).isSome = true := by
    rw [hTfr]
    cases pre with
    | nil => rfl
    | cons a pre' => rfl
  have hTlr : T.1.last_request_iteration = some t0 := by
    rw [hT, consumeStream_last_req]
    simp [List.getLast?_concat]
  have h7 : (consumeStream T.1 true post).1.first_request_iteration
      = T.1.first_request_iteration := by
    rcases Option.isSome_iff_exists.mp hTfr2 with ⟨v, hv'⟩
    rw [consumeStream_first_req, hv']
    simp
  have h8 : (consumeStream T.1 true post).1.last_request_iteration
      = ((post.map Prod.fst).getLast?).or (some t0) := by
    rw [consumeStream_last_req, hTlr]
  rcases consumeStream_after_end post T.1 with ⟨hA1, hA2, hA3, hA4⟩
  exact ⟨rfl, hA1, hA4, hA2, hA3, consumeStream_iters post T.1 true, h7, h8⟩

/-- C1: For a resolve call whose stream is fully consumed, n drained lines of
which exactly k carry decoder verdict one unit and the rest zero, the timing
record afterwards counts request_iterations = n and token_iterations = k;
under a monotone clock the first-token instant is at most the last-token
instant and both lie between the first-request and last-request instants
inclusive, and for k positive both token instants are recorded. -/
theorem full_consumption_timing_counts (cfg : BackendCfg) (st : BackendState)
    (req : GenerationRequest) (rp : String) (s : Nat) (script : StreamScript)
    (hs : st.async_client = some ())
    (hroute : List.lookup req.request_type cfg.api_routes = some rp)
    (hv : validate_request_body req.arguments.body = none)
    (hcf : script.connectFailure = none)
    (hif : script.iterFailure = none)
    (hU : ∀ p ∈ script.lines, p.2 = some 0 ∨ p.2 = some 1)
    (hM : (script.lines.map Prod.fst).Pairwise (· ≤ ·)) :
    (resolve cfg st req {} none s script).timings.request_iterations
      = script.lines.length ∧
    (resolve cfg st req {} none s script).timings.token_iterations
      = (unitCount script.lines : Int) ∧
    (0 < unitCount script.lines →
      ((resolve cfg st req {} none s script).timings.first_token_iteration).isSome
        = true ∧
      ((resolve cfg st req {} none s script).timings.last_token_iteration).isSome
        = true) ∧
    timeLe (resolve cfg st req {} none s script).timings.first_token_iteration
      (resolve cfg st req {} none s script).timings.last_token_iteration
      = true ∧
    timeLe (resolve cfg st req {} none s script).timings.first_request_iteration
      (resolve cfg st req {} none s script).timings.first_token_iteration
      = true ∧
    timeLe (resolve cfg st req {} none s script).timings.last_token_iteration
      (resolve cfg st req {} none s script).timings.last_request_iteration
      = true ∧
    timeLe (resolve cfg st req {} none s script).timings.first_request_iteration
      (resolve cfg st req {} none s script).timings.last_token_iteration
      = true ∧
    timeLe (resolve cfg st req {} none s script).timings.first_token_iteration
      (resolve cfg st req {} none s script).timings.last_request_iteration
      = true := by
  rw [resolve_success cfg st req {} rp s script hs hroute hv hcf hif]
  set E := (consumeStream ({ request_start := some s } : Timings) false
    script.lines).1 with hE
  have htoken := consumeStream_token_unset script.lines hU
    ({ request_start := some s } : Timings) rfl
  rw [← hE] at htoken
  have hiters : E.request_iterations = script.lines.length := by
    rw [hE, consumeStream_iters]
    simp
  have htok2 : E.token_iterations = (unitCount script.lines : Int) := by
    rw [htoken.2.1]
    rcases hfu : firstUnitTime script.lines with _ | v
    · rw [if_pos rfl, firstUnitTime_none_count _ hfu]
      rfl
    · rw [if_neg (by simp)]
  have hft : E.first_token_iteration = firstUnitTime script.lines :=
    htoken.2.2.1
  have hlt : E.last_token_iteration = lastUnitTime script.lines := by
    rw [htoken.2.2.2]
    simp
  have hfr : E.first_request_iteration = (script.lines.map Prod.fst).head? := by
    rw [hE, consumeStream_first_req]
    simp
  have hlr : E.last_request_iteration
      = (script.lines.map Prod.fst).getLast? := by
    rw [hE, consumeStream_last_req]
    simp
  have hsome : 0 < unitCount script.lines →
      (E.first_token_iteration).isSome = true ∧
      (E.last_token_iteration).isSome = true := by
    intro hk
    rw [hft, hlt]
    exact ⟨unitCount_pos_first _ hk, unitCount_pos_last _ hk⟩
  have hle1 : timeLe E.first_token_iteration E.last_token_iteration = true := by
    rw [hft, hlt]
    rcases hfu : firstUnitTime script.lines with _ | a
    · rfl
    · rcases hlu : lastUnitTime script.lines with _ | b
      · rfl
      · simp only [timeLe, decide_eq_true_eq]
        exact firstUnit_le_lastUnit _ hM a b hfu hlu
  have hle2 : timeLe E.first_request_iteration E.first_token_iteration
      = true := by
    rw [hfr, hft]
    rcases hh : (script.lines.map Prod.fst).head? with _ | h0
    · rfl
    · rcases hfu : firstUnitTime script.lines with _ | a
      · rfl
      · simp only [timeLe, decide_eq_true_eq]
        exact pairwise_head_le hM h0 hh a (firstUnitTime_mem _ a hfu)
  have hle3 : timeLe E.last_token_iteration E.last_request_iteration
      = true := by
    rw [hlt, hlr]
    rcases hlu : lastUnitTime script.lines with _ | b
    · rfl
    · rcases hgl : (script.lines.map Prod.fst).getLast? with _ | g
      · rfl
      · simp only [timeLe, decide_eq_true_eq]
        exact pairwise_le_last hM g hgl b (lastUnitTime_mem _ b hlu)
  have hle4 : timeLe E.first_request_iteration E.last_token_iteration
      = true := by
    rw [hfr, hlt]
    rcases hh : (script.lines.map Prod.fst).head? with _ | h0
    · rfl
    · rcases hlu : lastUnitTime script.lines with _ | b
      · rfl
      · simp only [timeLe, decide_eq_true_eq]
        exact pairwise_head_le hM h0 hh b (lastUnitTime_mem _ b hlu)
  have hle5 : timeLe E.first_token_iteration E.last_request_iteration
      = true := by
    rw [hft, hlr]
    rcases hfu : firstUnitTime script.lines with _ | a
    · rfl
    · rcases hgl : (script.lines.map Prod.fst).getLast? with _ | g
      · rfl
      · simp only [timeLe, decide_eq_true_eq]
        exact pairwise_le_last hM g hgl a (firstUnitTime_mem _ a hfu)
  exact ⟨hiters, htok2, hsome, hle1, hle2, hle3, hle4, hle5⟩

/-- Witness for C1 at a five-line stream with units on the second and fourth
lines. -/
theorem full_consumption_timing_counts_witness :
    0 < unitCount
        [(1, some 0), (2, some 1), (3, some 0), (4, some 1), (5, some 0)] ∧
    (resolve defaultCfg startedState nesReq {} none 0
        { lines := [(1, some 0), (2, some 1), (3, some 0), (4, some 1),
            (5, some 0)], endTime := 6 }).timings.request_iterations = 5 ∧
    (resolve defaultCfg startedState nesReq {} none 0
        { lines := [(1, some 0), (2, some 1), (3, some 0), (4, some 1),
            (5, some 0)], endTime := 6 }).timings.token_iterations = 2 ∧
    ((resolve defaultCfg startedState nesReq {} none 0
        { lines := [(1, some 0), (2, some 1), (3, some 0), (4, some 1),
            (5, some 0)],
          endTime := 6 }).timings.first_token_iteration).isSome = true ∧
    ((resolve defaultCfg startedState nesReq {} none 0
        { lines := [(1, some 0), (2, some 1), (3, some 0), (4, some 1),
            (5, some 0)],
          endTime := 6 }).timings.last_token_iteration).isSome = true ∧
    timeLe (resolve defaultCfg startedState nesReq {} none 0
        { lines := [(1, some 0), (2, some 1), (3, some 0), (4, some 1),
            (5, some 0)], endTime := 6 }).timings.first_token_iteration
      (resolve defaultCfg startedState nesReq {} none 0
        { lines := [(1, some 0), (2, some 1), (3, some 0), (4, some 1),
            (5, some 0)], endTime := 6 }).timings.last_token_iteration
      = true := by
  have h := full_consumption_timing_counts defaultCfg startedState nesReq
    "/service/v5/generate/v1" 0
    { lines := [(1, some 0), (2, some 1), (3, some 0), (4, some 1),
        (5, some 0)], endTime := 6 }
    rfl rfl rfl rfl rfl (by decide) (by decide)
  exact ⟨by decide, h.1, h.2.1, (h.2.2.1 (by decide)).1,
    (h.2.2.1 (by decide)).2, h.2.2.2.1⟩

end NES
